import Mathlib

/-!
Verification development for the pocketsmith-tx-proxy request-translation
proxy.  The Go sources are shallowly embedded: the resolution service
(`internal/service/transaction_service.go`), the remote ledger client
(`internal/api/pocketsmith_client.go`), the Redis cache repository
(`internal/repository`, cache store) and the params-validation tail of the
HTTP handler (`internal/handler/http_handler.go`).  External effects (the
Redis connection, the remote HTTP endpoint, JSON decoding of response
bodies) are modelled as explicit oracle values; stateful code threads an
explicit `RedisState`.
-/

namespace PSProxy

/-- Decidable equality for `Except`, so that concrete program outcomes can
be settled by evaluation. -/
instance {ε α : Type} [DecidableEq ε] [DecidableEq α] : DecidableEq (Except ε α) :=
  fun x y =>
    match x, y with
    | .error a, .error b =>
      if h : a = b then .isTrue (by rw [h]) else .isFalse (by simp [h])
    | .ok a, .ok b =>
      if h : a = b then .isTrue (by rw [h]) else .isFalse (by simp [h])
    | .error _, .ok _ => .isFalse (by simp)
    | .ok _, .error _ => .isFalse (by simp)

/-- Go's `strings.ToLower`, as a character map (computable by the kernel,
unlike `String.toLower`, which recurses on byte positions). -/
def stringToLower (s : String) : String := ⟨s.data.map Char.toLower⟩

/-- Go's `strings.ReplaceAll(s, ",", ".")`: single-character replacement as
a character map. -/
def replaceCommaWithDot (s : String) : String :=
  ⟨s.data.map fun c => if c = ',' then '.' else c⟩

/-- Go's `strings.Count(s, ".")` for the single-character pattern. -/
def countDots (s : String) : Nat := s.data.count '.'

/-- Digit-run accumulator for the `strconv.Atoi` model. -/
def parseNatDigits (cs : List Char) (acc : Nat) : Option Nat :=
  match cs with
  | [] => some acc
  | c :: rest =>
    if c.isDigit then parseNatDigits rest (acc * 10 + (c.toNat - 48)) else none

/-- Go's `strconv.Atoi`: optional sign followed by a nonempty digit run
(machine overflow aside). -/
def atoi (s : String) : Option Int :=
  match s.data with
  | [] => none
  | '-' :: rest =>
    if rest.isEmpty then none else (parseNatDigits rest 0).map fun n => -(n : Int)
  | '+' :: rest =>
    if rest.isEmpty then none else (parseNatDigits rest 0).map fun n => (n : Int)
  | cs => (parseNatDigits cs 0).map fun n => (n : Int)

/-- `domain.User` (`internal/domain/transaction.go`). -/
structure User where
  id : Int
deriving DecidableEq, Repr

/-- `domain.TransactionAccount`: a named ledger account. -/
structure TransactionAccount where
  id : Int
  name : String
  currency_code : String
deriving DecidableEq, Repr

/-- `domain.Category`: id, title, optional parent. -/
structure Category where
  id : Int
  title : String
  parent_id : Option Int
deriving DecidableEq, Repr

/-- `domain.Transaction`: the normalized inbound transaction value.  The
service (`transaction_service.go`) reads the lookup string as `tx.Account`;
the handler populates this slot from the request's `currency` param, so the
field carries the currency-or-account lookup string. -/
structure Transaction where
  account : String
  category : String
  merchant : String
  amount : String
  date : String
deriving DecidableEq, Repr

/-- `domain.PocketSmithTransaction`: the outbound create-transaction body. -/
structure PocketSmithTransaction where
  payee : String
  amount : String
  date : String
  is_transfer : Bool
  category_id : Option Int
deriving DecidableEq, Repr

/-- `domain.TransactionParams`: the decoded params of a `transactions.add`
RPC request.  Absent JSON fields decode to the empty string. -/
structure TransactionParams where
  currency : String
  category : String
  merchant : String
  value : String
  date : String
deriving DecidableEq, Repr

/-- Service-level errors: `lookupError` (client-caused, maps to 400) versus
every other error (wrapped with `fmt.Errorf`, maps to 500). -/
inductive SvcError where
  | lookup (message : String)
  | other (message : String)
deriving DecidableEq, Repr

/-- `service.IsLookupError`: dynamic type check for `*lookupError`. -/
def IsLookupError : SvcError → Bool
  | .lookup _ => true
  | .other _ => false

/-- The handler's status mapping in `Handle`: lookup errors become 400 Bad
Request, everything else 500 Internal Server Error. -/
def errorStatusCode (e : SvcError) : Nat :=
  if IsLookupError e then 400 else 500

/-- One call issued by the resolution service against the
`PocketSmithClient` interface, in program order. -/
inductive ClientCall where
  | getMeCall
  | getAccountsCall (userID : Int)
  | getCategoriesCall (userID : Int)
  | createCall (accountID : Int) (tx : PocketSmithTransaction)
deriving DecidableEq, Repr

/-- Oracle view of the `api.PocketSmithClient` interface as seen by the
resolution service: each operation's outcome for this request. -/
structure ClientOracle where
  getMe : Except String User
  getTransactionAccounts : Int → Except String (List TransactionAccount)
  getCategories : Int → Except String (List Category)
  createTransaction : Int → PocketSmithTransaction → Except String Unit

/-- The account-scan loop of `AddTransaction`: first entry whose lowercased
name equals the lowercased lookup string, yielding its id. -/
def findAccountID : List TransactionAccount → String → Option Int
  | [], _ => none
  | a :: rest, accountLower =>
    if stringToLower a.name = accountLower then some a.id else findAccountID rest accountLower

/-- `findCategoryByTitle` (`transaction_service.go`): linear scan of the
flattened category list for a case-insensitive title match. -/
def findCategoryByTitle : List Category → String → Option Int
  | [], _ => none
  | c :: rest, titleLower =>
    if stringToLower c.title = titleLower then some c.id else findCategoryByTitle rest titleLower

/-- `TransactionServiceImpl.AddTransaction`, translated statement by
statement; the second component is the ordered trace of client calls the
service issued. -/
def AddTransaction (client : ClientOracle) (tx : Transaction) :
    Except SvcError Unit × List ClientCall :=
  let accountLower := stringToLower tx.account
  let categoryLower := stringToLower tx.category
  match client.getMe with
  | .error e => (.error (.other ("failed to get user info: " ++ e)), [.getMeCall])
  | .ok user =>
    match client.getTransactionAccounts user.id with
    | .error e =>
      (.error (.other ("failed to get transaction accounts: " ++ e)),
       [.getMeCall, .getAccountsCall user.id])
    | .ok accounts =>
      match client.getCategories user.id with
      | .error e =>
        (.error (.other ("failed to get categories: " ++ e)),
         [.getMeCall, .getAccountsCall user.id, .getCategoriesCall user.id])
      | .ok categories =>
        let baseCalls :=
          [ClientCall.getMeCall, .getAccountsCall user.id, .getCategoriesCall user.id]
        match findAccountID accounts accountLower with
        | none =>
          (.error (.lookup ("no transaction account found with name: " ++ tx.account)),
           baseCalls)
        | some accountID =>
          match findCategoryByTitle categories categoryLower with
          | none =>
            (.error (.lookup ("no category found with title: " ++ tx.category)),
             baseCalls)
          | some categoryID =>
            let psTx : PocketSmithTransaction :=
              { payee := tx.merchant, amount := tx.amount, date := tx.date,
                is_transfer := false, category_id := some categoryID }
            match client.createTransaction accountID psTx with
            | .error e => (.error (.other e), baseCalls ++ [.createCall accountID psTx])
            | .ok _ => (.ok (), baseCalls ++ [.createCall accountID psTx])

/-- Whether a trace contains a create-transaction call. -/
def hasCreateCall (calls : List ClientCall) : Bool :=
  calls.any fun c =>
    match c with
    | .createCall _ _ => true
    | _ => false

/-- The params-validation tail of `HTTPHandler.validateAndParseRequest`
(after transport, auth and JSON decoding, which are the excluded boundary):
required-field presence, comma-to-dot amount normalization, the
multiple-separator check, and construction of the domain transaction.
Errors carry the HTTP status and message the handler writes. -/
def validateAndParseRequest (p : TransactionParams) : Except (Nat × String) Transaction :=
  if p.currency = "" ∨ p.category = "" ∨ p.merchant = "" ∨ p.value = "" ∨ p.date = "" then
    .error (400, "Bad request")
  else
    let amount := replaceCommaWithDot p.value
    if 1 < countDots amount then
      .error (422, "Invalid amount format: multiple decimal separators")
    else
      .ok { account := p.currency, category := p.category, merchant := p.merchant,
            amount := amount, date := p.date }

/-! ## Cache store (`internal/repository`, Redis-backed) -/

/-- A serialized value stored in the cache.  `json.Marshal` of the domain
lists is modelled as the injective constructors; `rawVal` stands for any
other byte string (whose `json.Unmarshal` into the domain lists fails). -/
inductive StoredVal where
  | accountsVal (l : List TransactionAccount)
  | categoriesVal (l : List Category)
  | rawVal (s : String)
deriving DecidableEq, Repr

/-- Observable Redis state: plain string keys, hash keys (field/value
lists), and the per-key expiry set by `EXPIRE` (in seconds). -/
structure RedisState where
  kv : List (String × String)
  hv : List (String × List (String × StoredVal))
  ttl : List (String × Int)
deriving DecidableEq, Repr

/-- Which Redis commands fail (connection faults etc.) during one
interaction; models the error returns of the Spin Redis client. -/
structure RedisFaults where
  getFails : Bool := false
  setFails : Bool := false
  hgetallFails : Bool := false
  hsetFails : Bool := false
  expireFails : Bool := false
deriving DecidableEq, Repr

/-- First-match association lookup (Go map access / hash field lookup). -/
def assocLookup {β : Type} (k : String) : List (String × β) → Option β
  | [] => none
  | (k', v) :: rest => if k' = k then some v else assocLookup k rest

/-- Update-or-insert for association lists. -/
def assocSet {β : Type} (k : String) (v : β) : List (String × β) → List (String × β)
  | [] => [(k, v)]
  | (k', v') :: rest => if k' = k then (k, v) :: rest else (k', v') :: assocSet k v rest

/-- Redis `GET`: errors on fault or absent key (the Spin client surfaces a
nil reply as an error). -/
def redisGet (f : RedisFaults) (key : String) (s : RedisState) : Except String String :=
  if f.getFails then .error "redis error" else
    match assocLookup key s.kv with
    | none => .error "no such key"
    | some v => .ok v

/-- Redis `SET`. -/
def redisSet (f : RedisFaults) (key payload : String) (s : RedisState) :
    Except String RedisState :=
  if f.setFails then .error "redis error" else
    .ok { s with kv := assocSet key payload s.kv }

/-- Redis `HGETALL`: an absent key yields the empty field list. -/
def redisHGetAll (f : RedisFaults) (key : String) (s : RedisState) :
    Except String (List (String × StoredVal)) :=
  if f.hgetallFails then .error "redis error" else
    .ok ((assocLookup key s.hv).getD [])

/-- Redis `HSET` of a single field. -/
def redisHSet (f : RedisFaults) (key field : String) (payload : StoredVal)
    (s : RedisState) : Except String RedisState :=
  if f.hsetFails then .error "redis error" else
    .ok { s with hv := assocSet key (assocSet field payload ((assocLookup key s.hv).getD [])) s.hv }

/-- Redis `EXPIRE`. -/
def redisExpire (f : RedisFaults) (key : String) (seconds : Int) (s : RedisState) :
    Except String RedisState :=
  if f.expireFails then .error "redis error" else
    .ok { s with ttl := assocSet key seconds s.ttl }

/-- `cacheTTL` constant of the repository: 86,400 seconds = 24 hours. -/
def cacheTTL : Int := 86400

/-- Key for a user's cached accounts: `user:{id}:accounts`. -/
def accountsKey (userID : Int) : String := "user:" ++ toString userID ++ ":accounts"

/-- Key for a user's cached categories: `user:{id}:categories`. -/
def categoriesKey (userID : Int) : String := "user:" ++ toString userID ++ ":categories"

/-- `RedisCacheRepository.GetUserID`: `GET user:id` then parse as integer. -/
def cacheGetUserID (f : RedisFaults) (s : RedisState) : Except String Int :=
  match redisGet f "user:id" s with
  | .error e => .error ("redis get user:id: " ++ e)
  | .ok data =>
    match atoi data with
    | none => .error "parse user ID"
    | some userID => .ok userID

/-- `RedisCacheRepository.SetUserID`: `SET user:id` then `EXPIRE` 24h; an
error after a successful `SET` leaves the `SET` in place. -/
def cacheSetUserID (f : RedisFaults) (userID : Int) (s : RedisState) :
    Except String Unit × RedisState :=
  match redisSet f "user:id" (toString userID) s with
  | .error e => (.error ("redis set user:id: " ++ e), s)
  | .ok s1 =>
    match redisExpire f "user:id" cacheTTL s1 with
    | .error e => (.error ("redis expire user:id: " ++ e), s1)
    | .ok s2 => (.ok (), s2)

/-- `json.Unmarshal` of a cached value into `[]TransactionAccount`. -/
def unmarshalAccounts : StoredVal → Except String (List TransactionAccount)
  | .accountsVal l => .ok l
  | _ => .error "invalid character"

/-- `json.Unmarshal` of a cached value into `[]Category`. -/
def unmarshalCategories : StoredVal → Except String (List Category)
  | .categoriesVal l => .ok l
  | _ => .error "invalid character"

/-- `RedisCacheRepository.GetTransactionAccounts`: `HGETALL`, the empty
reply or a missing `data` field is a cache miss error, then deserialize. -/
def cacheGetTransactionAccounts (f : RedisFaults) (userID : Int) (s : RedisState) :
    Except String (List TransactionAccount) :=
  let key := accountsKey userID
  match redisHGetAll f key s with
  | .error e => .error ("redis hgetall " ++ key ++ ": " ++ e)
  | .ok results =>
    if results.length = 0 then .error ("cache miss: " ++ key)
    else
      match assocLookup "data" results with
      | none => .error ("cache miss: " ++ key ++ " (no data field)")
      | some v =>
        match unmarshalAccounts v with
        | .error e => .error ("unmarshal accounts: " ++ e)
        | .ok accounts => .ok accounts

/-- `RedisCacheRepository.SetTransactionAccounts`: marshal (total for these
structs), `HSET key data payload`, then `EXPIRE key 86400`. -/
def cacheSetTransactionAccounts (f : RedisFaults) (userID : Int)
    (accounts : List TransactionAccount) (s : RedisState) :
    Except String Unit × RedisState :=
  let key := accountsKey userID
  match redisHSet f key "data" (.accountsVal accounts) s with
  | .error e => (.error ("redis hset " ++ key ++ ": " ++ e), s)
  | .ok s1 =>
    match redisExpire f key cacheTTL s1 with
    | .error e => (.error ("redis expire " ++ key ++ ": " ++ e), s1)
    | .ok s2 => (.ok (), s2)

/-- `RedisCacheRepository.GetCategories`: symmetric to accounts. -/
def cacheGetCategories (f : RedisFaults) (userID : Int) (s : RedisState) :
    Except String (List Category) :=
  let key := categoriesKey userID
  match redisHGetAll f key s with
  | .error e => .error ("redis hgetall " ++ key ++ ": " ++ e)
  | .ok results =>
    if results.length = 0 then .error ("cache miss: " ++ key)
    else
      match assocLookup "data" results with
      | none => .error ("cache miss: " ++ key ++ " (no data field)")
      | some v =>
        match unmarshalCategories v with
        | .error e => .error ("unmarshal categories: " ++ e)
        | .ok categories => .ok categories

/-- `RedisCacheRepository.SetCategories`: symmetric to accounts. -/
def cacheSetCategories (f : RedisFaults) (userID : Int)
    (categories : List Category) (s : RedisState) :
    Except String Unit × RedisState :=
  let key := categoriesKey userID
  match redisHSet f key "data" (.categoriesVal categories) s with
  | .error e => (.error ("redis hset " ++ key ++ ": " ++ e), s)
  | .ok s1 =>
    match redisExpire f key cacheTTL s1 with
    | .error e => (.error ("redis expire " ++ key ++ ": " ++ e), s1)
    | .ok s2 => (.ok (), s2)

/-! ## Remote ledger client (`internal/api/pocketsmith_client.go`) -/

/-- Outcome of `spinhttp.Send`: a transport failure, or a response with a
status code and a body. -/
inductive RawSend where
  | sendFailed (msg : String)
  | response (status : Int) (body : String)
deriving DecidableEq, Repr

/-- Result of one client operation: the returned value or error, the cache
state afterwards, and whether a network call was issued. -/
structure OpOutcome (α : Type) where
  result : Except String α
  state : RedisState
  networkCalled : Bool
deriving Repr

/-- `HTTPPocketSmithClient.GetMe`: cache-aside read of the user id.  The
`decodeUser` oracle models `json.Unmarshal` of the response body. -/
def clientGetMe (f : RedisFaults) (remote : RawSend)
    (decodeUser : String → Except String User) (s : RedisState) : OpOutcome User :=
  match cacheGetUserID f s with
  | .ok userID => ⟨.ok ⟨userID⟩, s, false⟩
  | .error _ =>
    match remote with
    | .sendFailed e => ⟨.error ("send request to PocketSmith: " ++ e), s, true⟩
    | .response status body =>
      if status ≠ 200 then
        ⟨.error ("PocketSmith request failed with status " ++ toString status ++ ": " ++ body),
         s, true⟩
      else
        match decodeUser body with
        | .error e => ⟨.error ("unmarshal response: " ++ e), s, true⟩
        | .ok user =>
          let r := cacheSetUserID f user.id s
          ⟨.ok user, r.2, true⟩

/-- `HTTPPocketSmithClient.GetTransactionAccounts`: cache-aside read of the
account list. -/
def clientGetTransactionAccounts (f : RedisFaults) (remote : RawSend)
    (decodeAccounts : String → Except String (List TransactionAccount))
    (userID : Int) (s : RedisState) : OpOutcome (List TransactionAccount) :=
  match cacheGetTransactionAccounts f userID s with
  | .ok accounts => ⟨.ok accounts, s, false⟩
  | .error _ =>
    match remote with
    | .sendFailed e => ⟨.error ("send request to PocketSmith: " ++ e), s, true⟩
    | .response status body =>
      if status ≠ 200 then
        ⟨.error ("PocketSmith request failed with status " ++ toString status ++ ": " ++ body),
         s, true⟩
      else
        match decodeAccounts body with
        | .error e => ⟨.error ("unmarshal response: " ++ e), s, true⟩
        | .ok accounts =>
          let r := cacheSetTransactionAccounts f userID accounts s
          ⟨.ok accounts, r.2, true⟩

/-- `HTTPPocketSmithClient.GetCategories`: cache-aside read of the category
list. -/
def clientGetCategories (f : RedisFaults) (remote : RawSend)
    (decodeCategories : String → Except String (List Category))
    (userID : Int) (s : RedisState) : OpOutcome (List Category) :=
  match cacheGetCategories f userID s with
  | .ok categories => ⟨.ok categories, s, false⟩
  | .error _ =>
    match remote with
    | .sendFailed e => ⟨.error ("send request to PocketSmith: " ++ e), s, true⟩
    | .response status body =>
      if status ≠ 200 then
        ⟨.error ("PocketSmith request failed with status " ++ toString status ++ ": " ++ body),
         s, true⟩
      else
        match decodeCategories body with
        | .error e => ⟨.error ("unmarshal response: " ++ e), s, true⟩
        | .ok categories =>
          let r := cacheSetCategories f userID categories s
          ⟨.ok categories, r.2, true⟩

/-- `HTTPPocketSmithClient.CreateTransaction`: POST the marshalled
transaction; 200 and 201 are success, anything else is an error carrying
the response body.  The cache is never consulted or written — the state is
threaded through unchanged, exactly as in the source, which never touches
`c.cache` in this method. -/
def clientCreateTransaction (remote : RawSend) (accountID : Int)
    (transaction : PocketSmithTransaction) (s : RedisState) : OpOutcome Unit :=
  match remote with
  | .sendFailed e => ⟨.error ("send request to PocketSmith: " ++ e), s, true⟩
  | .response status body =>
    if status ≠ 200 ∧ status ≠ 201 then
      ⟨.error ("PocketSmith request failed with status " ++ toString status ++ ": " ++ body),
       s, true⟩
    else
      ⟨.ok (), s, true⟩

/-! ## Concrete fixtures -/

/-- The single-account list of the lookup-miss scenario. -/
def usdAccount : TransactionAccount := ⟨1, "USD General", "USD"⟩

/-- The Groceries category used by the end-to-end scenario. -/
def groceriesCat : Category := ⟨5, "Groceries", none⟩

/-- Oracle with one USD account and one category, all operations healthy. -/
def singleAccountClient : ClientOracle where
  getMe := .ok ⟨1⟩
  getTransactionAccounts := fun _ => .ok [usdAccount]
  getCategories := fun _ => .ok [groceriesCat]
  createTransaction := fun _ _ => .ok ()

/-- A request naming `EUR General`, which no account matches. -/
def eurTx : Transaction := ⟨"EUR General", "Groceries", "Store", "-42.50", "2025-01-13"⟩

/-- The end-to-end scenario request against `USD General`. -/
def usdTx : Transaction := ⟨"USD General", "Groceries", "Store", "-42.50", "2025-01-13"⟩

/-! ## Helper lemmas -/

/-- The account scan returns the id of the first entry whose lowercased
name equals the lookup string, i.e. it agrees with `List.find?`. -/
theorem findAccountID_eq_find (l : List TransactionAccount) (s : String) :
    findAccountID l s = (l.find? fun a => stringToLower a.name = s).map fun a => a.id := by
  induction l with
  | nil => rfl
  | cons a rest ih =>
    by_cases h : stringToLower a.name = s
    · simp [findAccountID, h, List.find?]
    · simp [findAccountID, h, List.find?, ih]

/-- The category scan agrees with `List.find?` on lowercased titles. -/
theorem findCategoryByTitle_eq_find (l : List Category) (s : String) :
    findCategoryByTitle l s = (l.find? fun c => stringToLower c.title = s).map fun c => c.id := by
  induction l with
  | nil => rfl
  | cons c rest ih =>
    by_cases h : stringToLower c.title = s
    · simp [findCategoryByTitle, h, List.find?]
    · simp [findCategoryByTitle, h, List.find?, ih]

/-! ## Claims -/

/-- C1: with the user and both collections fetched successfully,
`AddTransaction` resolves the account to the first list entry whose name,
compared case-insensitively, equals the request's lookup string (the scan
agrees with `List.find?`, and a successful resolution issues the create
call against that first match's id); when no entry matches it returns a
lookup error referencing the searched value, distinguished as a
client-error (400) outcome, not a server error (500).  In particular a
request naming `EUR General` against the single-account list
`[{id:1, name:"USD General", currency_code:"USD"}]` yields a lookup error
referencing `EUR General`. -/
theorem addTransaction_account_resolution
    (client : ClientOracle) (tx : Transaction) (u : User)
    (accounts : List TransactionAccount) (cats : List Category)
    (hme : client.getMe = .ok u)
    (hacc : client.getTransactionAccounts u.id = .ok accounts)
    (hcat : client.getCategories u.id = .ok cats) :
    (findAccountID accounts (stringToLower tx.account) =
      (accounts.find? fun a => stringToLower a.name = stringToLower tx.account).map fun a => a.id)
    ∧ (∀ a catID,
        (accounts.find? fun x => stringToLower x.name = stringToLower tx.account) = some a →
        findCategoryByTitle cats (stringToLower tx.category) = some catID →
        (AddTransaction client tx).2 =
          [.getMeCall, .getAccountsCall u.id, .getCategoriesCall u.id,
           .createCall a.id ⟨tx.merchant, tx.amount, tx.date, false, some catID⟩])
    ∧ ((accounts.find? fun x => stringToLower x.name = stringToLower tx.account) = none →
        (AddTransaction client tx).1 =
          .error (.lookup ("no transaction account found with name: " ++ tx.account))
        ∧ IsLookupError (.lookup ("no transaction account found with name: " ++ tx.account))
            = true
        ∧ errorStatusCode
            (.lookup ("no transaction account found with name: " ++ tx.account)) = 400)
    ∧ ((AddTransaction singleAccountClient eurTx).1 =
        .error (.lookup "no transaction account found with name: EUR General")
       ∧ errorStatusCode (.lookup "no transaction account found with name: EUR General")
           = 400) := by
  refine ⟨findAccountID_eq_find accounts (stringToLower tx.account), ?_, ?_, ?_⟩
  · intro a catID hfind hcatid
    simp only [AddTransaction, hme, hacc, hcat, findAccountID_eq_find, hfind,
      Option.map_some, Option.map_some', hcatid]
    cases client.createTransaction a.id
        ⟨tx.merchant, tx.amount, tx.date, false, some catID⟩ <;> rfl
  · intro hfind
    refine ⟨?_, rfl, rfl⟩
    simp only [AddTransaction, hme, hacc, hcat, findAccountID_eq_find, hfind,
      Option.map_none, Option.map_none']
  · exact ⟨by decide, by decide⟩

/-- C1 witness: the theorem applied to the one-account oracle and the
`EUR General` request. -/
theorem addTransaction_account_resolution_witness :
    (AddTransaction singleAccountClient eurTx).1 =
      .error (.lookup ("no transaction account found with name: " ++ eurTx.account))
    ∧ IsLookupError
        (.lookup ("no transaction account found with name: " ++ eurTx.account)) = true
    ∧ errorStatusCode
        (.lookup ("no transaction account found with name: " ++ eurTx.account)) = 400 :=
  (addTransaction_account_resolution singleAccountClient eurTx ⟨1⟩ [usdAccount]
    [groceriesCat] rfl rfl rfl).2.2.1 (by decide)

/-- Oracle whose accounts fetch fails while every other operation would
succeed. -/
def accountsFailClient : ClientOracle where
  getMe := .ok ⟨7⟩
  getTransactionAccounts := fun _ => .error "boom"
  getCategories := fun _ => .ok [groceriesCat]
  createTransaction := fun _ _ => .ok ()

/-- Oracle whose categories fetch fails while every other operation would
succeed. -/
def categoriesFailClient : ClientOracle where
  getMe := .ok ⟨7⟩
  getTransactionAccounts := fun _ => .ok [usdAccount]
  getCategories := fun _ => .error "boom"
  createTransaction := fun _ _ => .ok ()

/-- C2: when exactly one of the two collection fetches fails and the other
succeeds, `AddTransaction` returns the failing fetch's error (wrapped with
its fetch context) rather than a partial success, and issues no
create-transaction call; the successful branch's result is discarded. -/
theorem addTransaction_single_fetch_failure
    (client : ClientOracle) (tx : Transaction) (u : User)
    (hme : client.getMe = .ok u) :
    (∀ e cats, client.getTransactionAccounts u.id = .error e →
      client.getCategories u.id = .ok cats →
      (AddTransaction client tx).1 =
        .error (.other ("failed to get transaction accounts: " ++ e))
      ∧ hasCreateCall (AddTransaction client tx).2 = false)
    ∧ (∀ accounts e, client.getTransactionAccounts u.id = .ok accounts →
        client.getCategories u.id = .error e →
        (AddTransaction client tx).1 =
          .error (.other ("failed to get categories: " ++ e))
        ∧ hasCreateCall (AddTransaction client tx).2 = false) := by
  constructor
  · intro e cats hacc hcat
    simp only [AddTransaction, hme, hacc]
    exact ⟨by simp, by simp [hasCreateCall]⟩
  · intro accounts e hacc hcat
    simp only [AddTransaction, hme, hacc, hcat]
    exact ⟨by simp, by simp [hasCreateCall]⟩

/-- C2 witness: the failing-accounts oracle at a concrete request. -/
theorem addTransaction_single_fetch_failure_witness :
    (AddTransaction accountsFailClient usdTx).1 =
      .error (.other ("failed to get transaction accounts: " ++ "boom"))
    ∧ hasCreateCall (AddTransaction accountsFailClient usdTx).2 = false :=
  (addTransaction_single_fetch_failure accountsFailClient usdTx ⟨7⟩ rfl).1
    "boom" [groceriesCat] rfl rfl

/-- C6 counterexample: the two collection fetches are not both issued
before either is awaited — with a failing accounts fetch the service never
issues the categories fetch at all, so the fetches are sequential, not a
parallel fan-out. -/
theorem addTransaction_fanout_counterexample :
    (AddTransaction accountsFailClient usdTx).2 = [.getMeCall, .getAccountsCall 7]
    ∧ ∀ uid, ClientCall.getCategoriesCall uid ∉ (AddTransaction accountsFailClient usdTx).2 := by
  refine ⟨by decide, ?_⟩
  intro uid hmem
  have h : (AddTransaction accountsFailClient usdTx).2 =
      [.getMeCall, .getAccountsCall 7] := by decide
  rw [h] at hmem
  simp at hmem

/-- C6 amended: `AddTransaction` issues the two collection fetches
sequentially — accounts first, then categories; the categories fetch is
issued only after the accounts fetch has returned successfully, and
resolution proceeds only after both have completed. -/
theorem addTransaction_sequential_fetches
    (client : ClientOracle) (tx : Transaction) (u : User)
    (hme : client.getMe = .ok u) :
    (∀ e, client.getTransactionAccounts u.id = .error e →
      (AddTransaction client tx).2 = [.getMeCall, .getAccountsCall u.id])
    ∧ (∀ accounts e, client.getTransactionAccounts u.id = .ok accounts →
        client.getCategories u.id = .error e →
        (AddTransaction client tx).2 =
          [.getMeCall, .getAccountsCall u.id, .getCategoriesCall u.id])
    ∧ (∀ accounts cats, client.getTransactionAccounts u.id = .ok accounts →
        client.getCategories u.id = .ok cats →
        (AddTransaction client tx).2.take 3 =
          [.getMeCall, .getAccountsCall u.id, .getCategoriesCall u.id]) := by
  refine ⟨?_, ?_, ?_⟩
  · intro e hacc
    simp only [AddTransaction, hme, hacc]
  · intro accounts e hacc hcat
    simp only [AddTransaction, hme, hacc, hcat]
  · intro accounts cats hacc hcat
    simp only [AddTransaction, hme, hacc, hcat]
    rcases hfa : findAccountID accounts (stringToLower tx.account) with _ | aid
    · simp [hfa]
    · rcases hfc : findCategoryByTitle cats (stringToLower tx.category) with _ | cid
      · simp [hfa, hfc]
      · rcases hct : client.createTransaction aid
            ⟨tx.merchant, tx.amount, tx.date, false, some cid⟩ with e | v
        · simp [hfa, hfc, hct]
        · simp [hfa, hfc, hct]

/-- C6 amended witness: the sequential trace at the failing-accounts
oracle. -/
theorem addTransaction_sequential_fetches_witness :
    (AddTransaction accountsFailClient usdTx).2 = [.getMeCall, .getAccountsCall 7] :=
  (addTransaction_sequential_fetches accountsFailClient usdTx ⟨7⟩ rfl).1 "boom" rfl

/-- C9: on the full success path the create call targets the resolved
account's id and carries payee = merchant, amount and date passed through
unmodified, `is_transfer = false` and the resolved category id; the
service's outcome is the client's create outcome verbatim. -/
theorem addTransaction_success_payload
    (client : ClientOracle) (tx : Transaction) (u : User)
    (accounts : List TransactionAccount) (cats : List Category) (aid cid : Int)
    (hme : client.getMe = .ok u)
    (hacc : client.getTransactionAccounts u.id = .ok accounts)
    (hcat : client.getCategories u.id = .ok cats)
    (haid : findAccountID accounts (stringToLower tx.account) = some aid)
    (hcid : findCategoryByTitle cats (stringToLower tx.category) = some cid) :
    (AddTransaction client tx).2 =
      [.getMeCall, .getAccountsCall u.id, .getCategoriesCall u.id,
       .createCall aid ⟨tx.merchant, tx.amount, tx.date, false, some cid⟩]
    ∧ (AddTransaction client tx).1 =
        (match client.createTransaction aid
            ⟨tx.merchant, tx.amount, tx.date, false, some cid⟩ with
         | .error e => .error (.other e)
         | .ok _ => .ok ()) := by
  simp only [AddTransaction, hme, hacc, hcat, haid, hcid]
  cases client.createTransaction aid ⟨tx.merchant, tx.amount, tx.date, false, some cid⟩ <;>
    exact ⟨rfl, rfl⟩

/-- C9 witness: the end-to-end scenario — merchant `Store`, amount
`-42.50`, date `2025-01-13` against the matching account and category. -/
theorem addTransaction_success_payload_witness :
    (AddTransaction singleAccountClient usdTx).2 =
      [.getMeCall, .getAccountsCall 1, .getCategoriesCall 1,
       .createCall 1 ⟨"Store", "-42.50", "2025-01-13", false, some 5⟩]
    ∧ (AddTransaction singleAccountClient usdTx).1 =
        (match singleAccountClient.createTransaction 1
            ⟨"Store", "-42.50", "2025-01-13", false, some 5⟩ with
         | .error e => .error (.other e)
         | .ok _ => .ok ()) :=
  addTransaction_success_payload singleAccountClient usdTx ⟨1⟩ [usdAccount]
    [groceriesCat] 1 5 rfl rfl rfl (by decide) (by decide)

/-- C10: no create-transaction call is ever issued on an error path — a
failing user fetch, a failing collection fetch, or a resolution miss each
returns its error with no create call in the trace. -/
theorem addTransaction_no_create_on_error (client : ClientOracle) (tx : Transaction) :
    (∀ e, client.getMe = .error e →
      (AddTransaction client tx).1 = .error (.other ("failed to get user info: " ++ e))
      ∧ hasCreateCall (AddTransaction client tx).2 = false)
    ∧ (∀ u e, client.getMe = .ok u → client.getTransactionAccounts u.id = .error e →
        (AddTransaction client tx).1 =
          .error (.other ("failed to get transaction accounts: " ++ e))
        ∧ hasCreateCall (AddTransaction client tx).2 = false)
    ∧ (∀ u accounts e, client.getMe = .ok u →
        client.getTransactionAccounts u.id = .ok accounts →
        client.getCategories u.id = .error e →
        (AddTransaction client tx).1 = .error (.other ("failed to get categories: " ++ e))
        ∧ hasCreateCall (AddTransaction client tx).2 = false)
    ∧ (∀ u accounts cats, client.getMe = .ok u →
        client.getTransactionAccounts u.id = .ok accounts →
        client.getCategories u.id = .ok cats →
        findAccountID accounts (stringToLower tx.account) = none →
        (AddTransaction client tx).1 =
          .error (.lookup ("no transaction account found with name: " ++ tx.account))
        ∧ hasCreateCall (AddTransaction client tx).2 = false)
    ∧ (∀ u accounts cats aid, client.getMe = .ok u →
        client.getTransactionAccounts u.id = .ok accounts →
        client.getCategories u.id = .ok cats →
        findAccountID accounts (stringToLower tx.account) = some aid →
        findCategoryByTitle cats (stringToLower tx.category) = none →
        (AddTransaction client tx).1 =
          .error (.lookup ("no category found with title: " ++ tx.category))
        ∧ hasCreateCall (AddTransaction client tx).2 = false) := by
  refine ⟨?_, ?_, ?_, ?_, ?_⟩
  · intro e hme
    simp only [AddTransaction, hme]
    exact ⟨by simp, by simp [hasCreateCall]⟩
  · intro u e hme hacc
    simp only [AddTransaction, hme, hacc]
    exact ⟨by simp, by simp [hasCreateCall]⟩
  · intro u accounts e hme hacc hcat
    simp only [AddTransaction, hme, hacc, hcat]
    exact ⟨by simp, by simp [hasCreateCall]⟩
  · intro u accounts cats hme hacc hcat hfind
    simp only [AddTransaction, hme, hacc, hcat, hfind]
    exact ⟨by simp, by simp [hasCreateCall]⟩
  · intro u accounts cats aid hme hacc hcat haid hcid
    simp only [AddTransaction, hme, hacc, hcat, haid, hcid]
    exact ⟨by simp, by simp [hasCreateCall]⟩

/-- C10 witness: the lookup-miss request issues no create call. -/
theorem addTransaction_no_create_on_error_witness :
    (AddTransaction singleAccountClient eurTx).1 =
      .error (.lookup ("no transaction account found with name: " ++ eurTx.account))
    ∧ hasCreateCall (AddTransaction singleAccountClient eurTx).2 = false :=
  (addTransaction_no_create_on_error singleAccountClient eurTx).2.2.2.1 ⟨1⟩
    [usdAccount] [groceriesCat] rfl rfl rfl (by decide)

/-- A request whose params carry no category title (absent JSON fields
decode to the empty string). -/
def noCategoryParams : TransactionParams := ⟨"USD General", "", "Store", "-42.50", "2025-01-13"⟩

/-- The corresponding domain transaction with an empty category title. -/
def noCategoryTx : Transaction := ⟨"USD General", "", "Store", "-42.50", "2025-01-13"⟩

/-- C5 counterexample: the category title is not optional — a request
without one is rejected by the handler with 400, and even past the handler
the service performs category resolution unconditionally and fails the
request with a lookup error instead of creating a transaction without a
category id. -/
theorem category_required_counterexample :
    validateAndParseRequest noCategoryParams = .error (400, "Bad request")
    ∧ (AddTransaction singleAccountClient noCategoryTx).1 =
        .error (.lookup "no category found with title: ")
    ∧ hasCreateCall (AddTransaction singleAccountClient noCategoryTx).2 = false := by
  refine ⟨by decide, by decide, by decide⟩

/-- C5 amended: the category title is required — the handler rejects any
params with an empty category title with status 400 Bad Request, and
category resolution is always performed by the service: every
create-transaction call it issues carries a resolved category id
(`category_id` present, equal to the scan result, never absent). -/
theorem category_always_required
    (p : TransactionParams) (client : ClientOracle) (tx : Transaction) :
    (p.category = "" → validateAndParseRequest p = .error (400, "Bad request"))
    ∧ (∀ aid ps, ClientCall.createCall aid ps ∈ (AddTransaction client tx).2 →
        ps.category_id.isSome = true) := by
  constructor
  · intro hcat
    simp [validateAndParseRequest, hcat]
  · intro aid ps hmem
    rcases hme : client.getMe with e | u
    · simp [AddTransaction, hme] at hmem
    · rcases hacc : client.getTransactionAccounts u.id with e | accounts
      · simp [AddTransaction, hme, hacc] at hmem
      · rcases hcat : client.getCategories u.id with e | cats
        · simp [AddTransaction, hme, hacc, hcat] at hmem
        · rcases hfa : findAccountID accounts (stringToLower tx.account) with _ | aid'
          · simp [AddTransaction, hme, hacc, hcat, hfa] at hmem
          · rcases hfc : findCategoryByTitle cats (stringToLower tx.category) with _ | cid
            · simp [AddTransaction, hme, hacc, hcat, hfa, hfc] at hmem
            · rcases hct : client.createTransaction aid'
                  ⟨tx.merchant, tx.amount, tx.date, false, some cid⟩ with e | v
              · simp [AddTransaction, hme, hacc, hcat, hfa, hfc, hct] at hmem
                rw [hmem.2]
                rfl
              · simp [AddTransaction, hme, hacc, hcat, hfa, hfc, hct] at hmem
                rw [hmem.2]
                rfl

/-- C5 amended witness: the empty-category params are rejected with 400. -/
theorem category_always_required_witness :
    validateAndParseRequest noCategoryParams = .error (400, "Bad request") :=
  (category_always_required noCategoryParams singleAccountClient usdTx).1 rfl

/-- An empty cache state. -/
def emptyRedis : RedisState := ⟨[], [], []⟩

/-- The outbound transaction of the end-to-end scenario. -/
def storeTx : PocketSmithTransaction := ⟨"Store", "-42.50", "2025-01-13", false, some 5⟩

/-- C8: `CreateTransaction` never reads or writes the cache store — the
cache state after every call is the state before, on success and failure —
and, when a response arrives, it succeeds exactly when the status is 200
or 201; any other status yields an error carrying the response body. -/
theorem createTransaction_no_cache_and_status
    (remote : RawSend) (accountID : Int) (transaction : PocketSmithTransaction)
    (s : RedisState) :
    (clientCreateTransaction remote accountID transaction s).state = s
    ∧ (∀ status body, remote = .response status body →
        (((clientCreateTransaction remote accountID transaction s).result = .ok ())
          ↔ (status = 200 ∨ status = 201))
        ∧ (status ≠ 200 → status ≠ 201 →
            (clientCreateTransaction remote accountID transaction s).result =
              .error ("PocketSmith request failed with status " ++ toString status
                ++ ": " ++ body))) := by
  constructor
  · cases remote with
    | sendFailed e => rfl
    | response st body =>
      simp only [clientCreateTransaction]
      split <;> rfl
  · intro status body hr
    subst hr
    by_cases h200 : status = 200
    · simp [clientCreateTransaction, h200]
    · by_cases h201 : status = 201
      · simp [clientCreateTransaction, h200, h201]
      · simp [clientCreateTransaction, h200, h201]

/-- C8 witness: a 404 response leaves the cache untouched and errors with
the body attached. -/
theorem createTransaction_no_cache_and_status_witness :
    (clientCreateTransaction (.response 404 "not found") 1 storeTx emptyRedis).state = emptyRedis
    ∧ (clientCreateTransaction (.response 404 "not found") 1 storeTx emptyRedis).result =
        .error ("PocketSmith request failed with status " ++ toString (404 : Int)
          ++ ": " ++ "not found") :=
  ⟨(createTransaction_no_cache_and_status (.response 404 "not found") 1 storeTx emptyRedis).1,
   ((createTransaction_no_cache_and_status (.response 404 "not found") 1 storeTx
       emptyRedis).2 404 "not found" rfl).2 (by decide) (by decide)⟩

/-- C3: every read operation of the remote ledger client is cache-aside —
on a cache hit the cached value is returned with no network call and the
state untouched; on a miss the remote call is issued, a 200 response is
written to the cache and the fetched data returned; any non-200 status
yields an error whose message carries the response body, with no cache
write (the state is unchanged). -/
theorem client_read_cache_aside
    (f : RedisFaults) (s : RedisState) (uid : Int) (remote : RawSend)
    (dU : String → Except String User)
    (dA : String → Except String (List TransactionAccount))
    (dC : String → Except String (List Category)) :
    ((∀ userID, cacheGetUserID f s = .ok userID →
        clientGetMe f remote dU s = ⟨.ok ⟨userID⟩, s, false⟩)
     ∧ (∀ e body u, cacheGetUserID f s = .error e → remote = .response 200 body →
          dU body = .ok u →
          clientGetMe f remote dU s = ⟨.ok u, (cacheSetUserID f u.id s).2, true⟩)
     ∧ (∀ e st body, cacheGetUserID f s = .error e → remote = .response st body →
          st ≠ 200 →
          clientGetMe f remote dU s =
            ⟨.error ("PocketSmith request failed with status " ++ toString st ++ ": " ++ body),
             s, true⟩))
    ∧ ((∀ accounts, cacheGetTransactionAccounts f uid s = .ok accounts →
          clientGetTransactionAccounts f remote dA uid s = ⟨.ok accounts, s, false⟩)
       ∧ (∀ e body accounts, cacheGetTransactionAccounts f uid s = .error e →
            remote = .response 200 body → dA body = .ok accounts →
            clientGetTransactionAccounts f remote dA uid s =
              ⟨.ok accounts, (cacheSetTransactionAccounts f uid accounts s).2, true⟩)
       ∧ (∀ e st body, cacheGetTransactionAccounts f uid s = .error e →
            remote = .response st body → st ≠ 200 →
            clientGetTransactionAccounts f remote dA uid s =
              ⟨.error ("PocketSmith request failed with status " ++ toString st ++ ": " ++ body),
               s, true⟩))
    ∧ ((∀ cats, cacheGetCategories f uid s = .ok cats →
          clientGetCategories f remote dC uid s = ⟨.ok cats, s, false⟩)
       ∧ (∀ e body cats, cacheGetCategories f uid s = .error e →
            remote = .response 200 body → dC body = .ok cats →
            clientGetCategories f remote dC uid s =
              ⟨.ok cats, (cacheSetCategories f uid cats s).2, true⟩)
       ∧ (∀ e st body, cacheGetCategories f uid s = .error e →
            remote = .response st body → st ≠ 200 →
            clientGetCategories f remote dC uid s =
              ⟨.error ("PocketSmith request failed with status " ++ toString st ++ ": " ++ body),
               s, true⟩)) := by
  refine ⟨⟨?_, ?_, ?_⟩, ⟨?_, ?_, ?_⟩, ⟨?_, ?_, ?_⟩⟩
  · intro userID hc
    simp [clientGetMe, hc]
  · intro e body u hc hr hd
    subst hr
    simp [clientGetMe, hc, hd]
  · intro e st body hc hr hst
    subst hr
    simp [clientGetMe, hc, hst]
  · intro accounts hc
    simp [clientGetTransactionAccounts, hc]
  · intro e body accounts hc hr hd
    subst hr
    simp [clientGetTransactionAccounts, hc, hd]
  · intro e st body hc hr hst
    subst hr
    simp [clientGetTransactionAccounts, hc, hst]
  · intro cats hc
    simp [clientGetCategories, hc]
  · intro e body cats hc hr hd
    subst hr
    simp [clientGetCategories, hc, hd]
  · intro e st body hc hr hst
    subst hr
    simp [clientGetCategories, hc, hst]

/-- Decoder fixture: the response body decodes to the one-account list. -/
def okAccountsDecode : String → Except String (List TransactionAccount) :=
  fun _ => .ok [usdAccount]

/-- Decoder fixture: the response body decodes to the one-category list. -/
def okCategoriesDecode : String → Except String (List Category) :=
  fun _ => .ok [groceriesCat]

/-- Decoder fixture: the response body decodes to user 42. -/
def okUserDecode : String → Except String User := fun _ => .ok ⟨42⟩

/-- Fault-free Redis connection. -/
def healthyFaults : RedisFaults := {}

/-- C3 witness: a miss on the empty cache with a healthy 200 fetch returns
the decoded accounts and populates the cache. -/
theorem client_read_cache_aside_witness :
    clientGetTransactionAccounts healthyFaults (.response 200 "body") okAccountsDecode
        7 emptyRedis =
      ⟨.ok [usdAccount],
       (cacheSetTransactionAccounts healthyFaults 7 [usdAccount] emptyRedis).2, true⟩ :=
  (client_read_cache_aside healthyFaults emptyRedis 7 (.response 200 "body")
      okUserDecode okAccountsDecode okCategoriesDecode).2.1.2.1
    ("cache miss: " ++ accountsKey 7) "body" [usdAccount] (by decide) rfl rfl

/-- Cache state whose accounts hash exists but has no `data` field. -/
def missingFieldRedis : RedisState := ⟨[], [(accountsKey 7, [("meta", .rawVal "x")])], []⟩

/-- Cache state whose accounts `data` field holds undeserializable bytes. -/
def corruptRedis : RedisState := ⟨[], [(accountsKey 7, [("data", .rawVal "garbage")])], []⟩

/-- Redis connection whose `HSET` fails (cache writes fail). -/
def hsetFaults : RedisFaults := { hsetFails := true }

/-- C7: no cache store failure is ever propagated — any cache read error
makes the read operation fall through to the remote fetch (network call
issued), and after a successful 200 fetch the data is returned to the
caller regardless of whether the cache write succeeds (the fault flags are
arbitrary).  The three miss kinds — key absent, `data` field absent,
deserialization failure — are each cache read errors that fall through. -/
theorem cache_failures_never_fatal
    (f : RedisFaults) (s : RedisState) (uid : Int) (remote : RawSend)
    (dU : String → Except String User)
    (dA : String → Except String (List TransactionAccount))
    (dC : String → Except String (List Category)) :
    ((∀ e, cacheGetUserID f s = .error e →
        (clientGetMe f remote dU s).networkCalled = true)
     ∧ (∀ e body u, cacheGetUserID f s = .error e → remote = .response 200 body →
          dU body = .ok u → (clientGetMe f remote dU s).result = .ok u))
    ∧ ((∀ e, cacheGetTransactionAccounts f uid s = .error e →
          (clientGetTransactionAccounts f remote dA uid s).networkCalled = true)
       ∧ (∀ e body accounts, cacheGetTransactionAccounts f uid s = .error e →
            remote = .response 200 body → dA body = .ok accounts →
            (clientGetTransactionAccounts f remote dA uid s).result = .ok accounts))
    ∧ ((∀ e, cacheGetCategories f uid s = .error e →
          (clientGetCategories f remote dC uid s).networkCalled = true)
       ∧ (∀ e body cats, cacheGetCategories f uid s = .error e →
            remote = .response 200 body → dC body = .ok cats →
            (clientGetCategories f remote dC uid s).result = .ok cats))
    ∧ (cacheGetTransactionAccounts healthyFaults 7 emptyRedis =
        .error ("cache miss: " ++ accountsKey 7)
       ∧ cacheGetTransactionAccounts healthyFaults 7 missingFieldRedis =
          .error ("cache miss: " ++ accountsKey 7 ++ " (no data field)")
       ∧ cacheGetTransactionAccounts healthyFaults 7 corruptRedis =
          .error ("unmarshal accounts: " ++ "invalid character")) := by
  refine ⟨⟨?_, ?_⟩, ⟨?_, ?_⟩, ⟨?_, ?_⟩, by decide, by decide, by decide⟩
  · intro e hc
    rcases remote with m | ⟨st, body⟩
    · simp [clientGetMe, hc]
    · by_cases h : st = 200
      · subst h
        rcases hd : dU body with e2 | u
        · simp [clientGetMe, hc, hd]
        · simp [clientGetMe, hc, hd]
      · simp [clientGetMe, hc, h]
  · intro e body u hc hr hd
    subst hr
    simp [clientGetMe, hc, hd]
  · intro e hc
    rcases remote with m | ⟨st, body⟩
    · simp [clientGetTransactionAccounts, hc]
    · by_cases h : st = 200
      · subst h
        rcases hd : dA body with e2 | accounts
        · simp [clientGetTransactionAccounts, hc, hd]
        · simp [clientGetTransactionAccounts, hc, hd]
      · simp [clientGetTransactionAccounts, hc, h]
  · intro e body accounts hc hr hd
    subst hr
    simp [clientGetTransactionAccounts, hc, hd]
  · intro e hc
    rcases remote with m | ⟨st, body⟩
    · simp [clientGetCategories, hc]
    · by_cases h : st = 200
      · subst h
        rcases hd : dC body with e2 | cats
        · simp [clientGetCategories, hc, hd]
        · simp [clientGetCategories, hc, hd]
      · simp [clientGetCategories, hc, h]
  · intro e body cats hc hr hd
    subst hr
    simp [clientGetCategories, hc, hd]

/-- C7 witness: a deserialization-failure cache read plus a failing cache
write still returns the freshly fetched accounts. -/
theorem cache_failures_never_fatal_witness :
    (clientGetTransactionAccounts hsetFaults (.response 200 "body") okAccountsDecode
        7 corruptRedis).result = .ok [usdAccount] :=
  (cache_failures_never_fatal hsetFaults corruptRedis 7 (.response 200 "body")
      okUserDecode okAccountsDecode okCategoriesDecode).2.1.2
    ("unmarshal accounts: " ++ "invalid character") "body" [usdAccount] (by decide) rfl rfl

/-- Looking up the key just set returns the value just set. -/
theorem assocLookup_assocSet {β : Type} (k : String) (v : β) (l : List (String × β)) :
    assocLookup k (assocSet k v l) = some v := by
  induction l with
  | nil => simp [assocSet, assocLookup]
  | cons p rest ih =>
    obtain ⟨k', v'⟩ := p
    by_cases h : k' = k
    · simp [assocSet, assocLookup, h]
    · simp [assocSet, assocLookup, h, ih]

/-- Redis connection whose `EXPIRE` fails after a successful `HSET`. -/
def expireFaults : RedisFaults := { expireFails := true }

/-- C4 counterexample: a collection write is not all-or-nothing — when
`EXPIRE` fails after a successful `HSET`, `SetTransactionAccounts` reports
failure yet the payload remains persisted under the key with no expiry
set, i.e. partial cache state is left behind. -/
theorem cache_write_partial_counterexample :
    (cacheSetTransactionAccounts expireFaults 7 [usdAccount] emptyRedis).1 =
      .error ("redis expire " ++ accountsKey 7 ++ ": " ++ "redis error")
    ∧ (cacheSetTransactionAccounts expireFaults 7 [usdAccount] emptyRedis).2.hv =
        [(accountsKey 7, [("data", .accountsVal [usdAccount])])]
    ∧ assocLookup (accountsKey 7)
        (cacheSetTransactionAccounts expireFaults 7 [usdAccount] emptyRedis).2.ttl = none := by
  exact ⟨by decide, by decide, by decide⟩

/-- C4 amended: every cache write (`SetTransactionAccounts`,
`SetCategories`, `SetUserID`) either sets both the payload and the
24-hour (86,400 s) expiry and succeeds, or returns an error; a failure at
the payload step leaves the state untouched, but a failure at the expiry
step — after the payload was stored — is reported as a failed write while
the payload remains persisted without a fresh expiry (partial state can
remain). -/
theorem cache_write_expiry_behavior
    (f : RedisFaults) (uid userID : Int) (accounts : List TransactionAccount)
    (cats : List Category) (s : RedisState) :
    ((f.hsetFails = false → f.expireFails = false →
        (cacheSetTransactionAccounts f uid accounts s).1 = .ok ()
        ∧ assocLookup "data"
            ((assocLookup (accountsKey uid)
               (cacheSetTransactionAccounts f uid accounts s).2.hv).getD [])
            = some (.accountsVal accounts)
        ∧ assocLookup (accountsKey uid)
            (cacheSetTransactionAccounts f uid accounts s).2.ttl = some cacheTTL)
     ∧ (f.hsetFails = true →
          (cacheSetTransactionAccounts f uid accounts s).1 =
            .error ("redis hset " ++ accountsKey uid ++ ": " ++ "redis error")
          ∧ (cacheSetTransactionAccounts f uid accounts s).2 = s)
     ∧ (f.hsetFails = false → f.expireFails = true →
          (cacheSetTransactionAccounts f uid accounts s).1 =
            .error ("redis expire " ++ accountsKey uid ++ ": " ++ "redis error")
          ∧ assocLookup "data"
              ((assocLookup (accountsKey uid)
                 (cacheSetTransactionAccounts f uid accounts s).2.hv).getD [])
              = some (.accountsVal accounts)
          ∧ (cacheSetTransactionAccounts f uid accounts s).2.ttl = s.ttl))
    ∧ ((f.hsetFails = false → f.expireFails = false →
          (cacheSetCategories f uid cats s).1 = .ok ()
          ∧ assocLookup "data"
              ((assocLookup (categoriesKey uid)
                 (cacheSetCategories f uid cats s).2.hv).getD [])
              = some (.categoriesVal cats)
          ∧ assocLookup (categoriesKey uid)
              (cacheSetCategories f uid cats s).2.ttl = some cacheTTL)
       ∧ (f.hsetFails = true →
            (cacheSetCategories f uid cats s).1 =
              .error ("redis hset " ++ categoriesKey uid ++ ": " ++ "redis error")
            ∧ (cacheSetCategories f uid cats s).2 = s)
       ∧ (f.hsetFails = false → f.expireFails = true →
            (cacheSetCategories f uid cats s).1 =
              .error ("redis expire " ++ categoriesKey uid ++ ": " ++ "redis error")
            ∧ assocLookup "data"
                ((assocLookup (categoriesKey uid)
                   (cacheSetCategories f uid cats s).2.hv).getD [])
                = some (.categoriesVal cats)
            ∧ (cacheSetCategories f uid cats s).2.ttl = s.ttl))
    ∧ ((f.setFails = false → f.expireFails = false →
          (cacheSetUserID f userID s).1 = .ok ()
          ∧ assocLookup "user:id" (cacheSetUserID f userID s).2.kv =
              some (toString userID)
          ∧ assocLookup "user:id" (cacheSetUserID f userID s).2.ttl = some cacheTTL)
       ∧ (f.setFails = true →
            (cacheSetUserID f userID s).1 =
              .error ("redis set user:id: " ++ "redis error")
            ∧ (cacheSetUserID f userID s).2 = s)
       ∧ (f.setFails = false → f.expireFails = true →
            (cacheSetUserID f userID s).1 =
              .error ("redis expire user:id: " ++ "redis error")
            ∧ assocLookup "user:id" (cacheSetUserID f userID s).2.kv =
                some (toString userID)
            ∧ (cacheSetUserID f userID s).2.ttl = s.ttl)) := by
  refine ⟨⟨?_, ?_, ?_⟩, ⟨?_, ?_, ?_⟩, ⟨?_, ?_, ?_⟩⟩
  · intro h1 h2
    simp [cacheSetTransactionAccounts, redisHSet, redisExpire, h1, h2, assocLookup_assocSet]
  · intro h1
    simp [cacheSetTransactionAccounts, redisHSet, h1]
  · intro h1 h2
    simp [cacheSetTransactionAccounts, redisHSet, redisExpire, h1, h2, assocLookup_assocSet]
  · intro h1 h2
    simp [cacheSetCategories, redisHSet, redisExpire, h1, h2, assocLookup_assocSet]
  · intro h1
    simp [cacheSetCategories, redisHSet, h1]
  · intro h1 h2
    simp [cacheSetCategories, redisHSet, redisExpire, h1, h2, assocLookup_assocSet]
  · intro h1 h2
    simp [cacheSetUserID, redisSet, redisExpire, h1, h2, assocLookup_assocSet]
  · intro h1
    simp [cacheSetUserID, redisSet, h1]
  · intro h1 h2
    simp [cacheSetUserID, redisSet, redisExpire, h1, h2, assocLookup_assocSet]

/-- C4 amended witness: the expire-failure write at a concrete input —
reported failed, payload persisted, expiry untouched. -/
theorem cache_write_expiry_behavior_witness :
    (cacheSetTransactionAccounts expireFaults 7 [usdAccount] emptyRedis).1 =
      .error ("redis expire " ++ accountsKey 7 ++ ": " ++ "redis error")
    ∧ assocLookup "data"
        ((assocLookup (accountsKey 7)
           (cacheSetTransactionAccounts expireFaults 7 [usdAccount] emptyRedis).2.hv).getD [])
        = some (.accountsVal [usdAccount])
    ∧ (cacheSetTransactionAccounts expireFaults 7 [usdAccount] emptyRedis).2.ttl =
        emptyRedis.ttl :=
  (cache_write_expiry_behavior expireFaults 7 42 [usdAccount] [] emptyRedis).1.2.2 rfl rfl

end PSProxy
